import Mathlib

/-!
Verification of `src/server/scripts/parse_document.py`, a command-line
adapter around the external `docling` document-conversion library.

The external collaborator (the `docling` import, the `DocumentConverter`
constructor, its `convert` entry point, the document's
`export_to_markdown` method and its optional `pages` collection) is
modelled as an explicit environment: each step either succeeds or raises
an exception, represented by `Except String`.  Python dictionaries are
modelled as association lists of JSON values, and `json.dumps` is
modelled by an executable serializer faithful to CPython's escaping
rules (default `ensure_ascii=True` for the usage message, and
`ensure_ascii=False` for the result envelope, as in the source).
-/

namespace ParseDoc

/-- A JSON value as produced by the script (only strings, booleans and
non-negative integers occur). -/
inductive JVal where
  | str : String → JVal
  | bool : Bool → JVal
  | num : Nat → JVal
deriving DecidableEq, Repr

/-- A Python dict as built by the script: an insertion-ordered
association list (CPython 3.7+ dicts preserve insertion order, and
`json.dumps` serializes in that order). -/
abbrev JDict := List (String × JVal)

/-- The `result.document` object returned by the collaborator's
`convert`: its `export_to_markdown()` call (which may itself raise) and
its optional `pages` collection (`hasattr(result.document, 'pages')`). -/
structure Doc where
  exportToMarkdown : Except String String
  pages : Option (List Unit)

/-- The environment of one invocation: the behaviour of the filesystem
and of the external `docling` library.  Each collaborator step either
returns normally (`Except.ok`) or raises an exception whose string form
(`str(e)`) is recorded (`Except.error`). -/
structure Env where
  importDocling : Except String Unit
  pathExists : String → Bool
  converterInit : Except String Unit
  convert : String → Except String Doc

/-- Split a character list on `/`, keeping empty components (the
splitting CPython's `pathlib` performs before dropping empty and `.`
parts). -/
def splitSlash : List Char → List (List Char)
  | [] => [[]]
  | c :: cs =>
    if c = '/' then [] :: splitSlash cs
    else
      match splitSlash cs with
      | [] => [[c]]
      | g :: gs => (c :: g) :: gs

/-- `pathlib.Path(s).name`: the final path component, with empty and
`"."` components dropped (pure-POSIX semantics, as on the Linux host the
script targets). -/
def pathName (s : String) : String :=
  String.mk ((((splitSlash s.data).filter
    (fun c => !(c == ([] : List Char) || c == ['.']))).getLast?).getD [])

/-- The `filename` field of the caught-exception envelope:
`Path(file_path).name if file_path else "unknown"` (the empty string is
falsy in Python). -/
def exceptFilename (file_path : String) : String :=
  if file_path = "" then "unknown" else pathName file_path

/-- Shallow embedding of `parse_document` from
`src/server/scripts/parse_document.py`.  The `try` block first imports
`docling` (an import that raises is caught like any other exception),
then checks `path.exists()`, returning the minimal
`{"error": "File not found: <path>"}` dict when the check fails;
otherwise it constructs the converter, converts, exports markdown, and
builds the success dict, `pages` defaulting to 1 when the document has
no `pages` attribute.  Any raised exception yields the
`{"success": False, "error": str(e), "filename": ...}` dict. -/
def parse_document (env : Env) (file_path : String) : JDict :=
  match env.importDocling with
  | .error e =>
    [("success", JVal.bool false), ("error", JVal.str e),
     ("filename", JVal.str (exceptFilename file_path))]
  | .ok _ =>
    if env.pathExists file_path then
      match env.converterInit with
      | .error e =>
        [("success", JVal.bool false), ("error", JVal.str e),
         ("filename", JVal.str (exceptFilename file_path))]
      | .ok _ =>
        match env.convert file_path with
        | .error e =>
          [("success", JVal.bool false), ("error", JVal.str e),
           ("filename", JVal.str (exceptFilename file_path))]
        | .ok doc =>
          match doc.exportToMarkdown with
          | .error e =>
            [("success", JVal.bool false), ("error", JVal.str e),
             ("filename", JVal.str (exceptFilename file_path))]
          | .ok text =>
            [("success", JVal.bool true), ("text", JVal.str text),
             ("filename", JVal.str (pathName file_path)),
             ("pages", JVal.num (match doc.pages with
               | some ps => ps.length
               | none => 1))]
    else
      [("error", JVal.str ("File not found: " ++ file_path))]

/-- Dictionary lookup (first matching key). -/
def getVal (d : JDict) (k : String) : Option JVal :=
  match d with
  | [] => none
  | kv :: rest => if kv.1 = k then some kv.2 else getVal rest k

/-- Whether a dict carries a given key. -/
def hasKey (d : JDict) (k : String) : Bool :=
  (getVal d k).isSome

/-- Lowercase hexadecimal digit, as CPython's `json` encoder emits. -/
def hexDigit (n : Nat) : Char :=
  if n < 10 then Char.ofNat (48 + n) else Char.ofNat (87 + n)

/-- Four lowercase hex digits of a value below 0x10000 (a `\uXXXX`
escape body). -/
def hexList4 (n : Nat) : List Char :=
  [hexDigit (n / 4096 % 16), hexDigit (n / 256 % 16),
   hexDigit (n / 16 % 16), hexDigit (n % 16)]

/-- CPython `json` escaping of one character.  With
`ensure_ascii=False` only `"` and `\` and the control characters below
0x20 are escaped; with `ensure_ascii=True` every character outside
0x20–0x7e is additionally escaped, astral characters as a UTF-16
surrogate pair. -/
def escapeChar (ensureAscii : Bool) (c : Char) : List Char :=
  if c = '"' then ['\\', '"']
  else if c = '\\' then ['\\', '\\']
  else if c = '\n' then ['\\', 'n']
  else if c = '\t' then ['\\', 't']
  else if c = '\r' then ['\\', 'r']
  else if c.toNat = 8 then ['\\', 'b']
  else if c.toNat = 12 then ['\\', 'f']
  else if c.toNat < 32 then '\\' :: 'u' :: hexList4 c.toNat
  else if ensureAscii && 126 < c.toNat then
    if c.toNat ≤ 65535 then '\\' :: 'u' :: hexList4 c.toNat
    else '\\' :: 'u' :: hexList4 (55296 + (c.toNat - 65536) / 1024) ++
         '\\' :: 'u' :: hexList4 (56320 + (c.toNat - 65536) % 1024)
  else [c]

/-- Escape every character of a string body. -/
def escapeString (ensureAscii : Bool) : List Char → List Char
  | [] => []
  | c :: cs => escapeChar ensureAscii c ++ escapeString ensureAscii cs

/-- A JSON string literal: quoted, escaped body. -/
def jsonStringChars (ensureAscii : Bool) (s : String) : List Char :=
  '"' :: escapeString ensureAscii s.data ++ ['"']

/-- Decimal digits of a natural number, most significant first, with an
explicit fuel argument (`n + 1` steps always suffice). -/
def natDecCore : Nat → Nat → List Char → List Char
  | 0, _, acc => acc
  | fuel + 1, n, acc =>
    if n < 10 then hexDigit (n % 10) :: acc
    else natDecCore fuel (n / 10) (hexDigit (n % 10) :: acc)

/-- Decimal rendering of a natural number, as `json.dumps` renders a
non-negative `int`. -/
def natDecChars (n : Nat) : List Char :=
  natDecCore (n + 1) n []

/-- Serialization of one JSON value. -/
def jsonValChars (ensureAscii : Bool) : JVal → List Char
  | .str s => jsonStringChars ensureAscii s
  | .bool true => ['t', 'r', 'u', 'e']
  | .bool false => ['f', 'a', 'l', 's', 'e']
  | .num n => natDecChars n

/-- One `"key": value` item (CPython's default `": "` key separator). -/
def jsonEntryChars (ensureAscii : Bool) (kv : String × JVal) : List Char :=
  jsonStringChars ensureAscii kv.1 ++ ':' :: ' ' :: jsonValChars ensureAscii kv.2

/-- Items joined by CPython's default `", "` item separator. -/
def jsonEntriesChars (ensureAscii : Bool) : JDict → List Char
  | [] => []
  | [kv] => jsonEntryChars ensureAscii kv
  | kv :: kvs => jsonEntryChars ensureAscii kv ++ ',' :: ' ' :: jsonEntriesChars ensureAscii kvs

/-- `json.dumps` on a dict: items between braces. -/
def jsonDumps (ensureAscii : Bool) (d : JDict) : String :=
  String.mk (Char.ofNat 123 :: jsonEntriesChars ensureAscii d ++ [Char.ofNat 125])

/-- What one process run observably does: the lines printed to standard
output and the process exit code. -/
structure RunOutput where
  stdoutLines : List String
  exitCode : Nat
deriving DecidableEq, Repr

/-- Shallow embedding of `main`: `argv` is `sys.argv[1:]`.  With no
argument it prints the usage error (plain `json.dumps`, so
`ensure_ascii` defaults to `True`) and exits with code 1; otherwise it
prints `json.dumps(result, ensure_ascii=False)` and the interpreter
exits normally with code 0. -/
def main (env : Env) (argv : List String) : RunOutput :=
  match argv with
  | [] =>
    ⟨[jsonDumps true [("error", JVal.str "Usage: parse_document.py <file_path>")]], 1⟩
  | file_path :: _ =>
    ⟨[jsonDumps false (parse_document env file_path)], 0⟩

/-! ### Concrete environments and documents used as witnesses and counterexamples -/

def envC1 : Env := ⟨.ok (), fun _ => false, .ok (), fun _ => .error "never"⟩

def envC2 : Env := ⟨.ok (), fun _ => true, .error "boom", fun _ => .error "boom"⟩

def docC3 : Doc := ⟨.ok "# Hi", some [(), ()]⟩

def envC3 : Env := ⟨.ok (), fun _ => true, .ok (), fun _ => .ok docC3⟩

/-- A document whose markdown export is empty and whose `pages`
collection exists but is empty: the collaborator reports success, yet
`len(result.document.pages) == 0`. -/
def docC6 : Doc := ⟨.ok "", some []⟩

def envC6 : Env := ⟨.ok (), fun _ => true, .ok (), fun _ => .ok docC6⟩

def docC6W : Doc := ⟨.ok "x", none⟩

def envC6W : Env := ⟨.ok (), fun _ => true, .ok (), fun _ => .ok docC6W⟩

/-- The minimal pre-check error dict shape `{error}`. -/
def isMinErrorShape (d : JDict) : Prop :=
  ∃ e, d = [("error", JVal.str e)]

/-- The success envelope shape `{success: true, text, filename, pages}`. -/
def isSuccessShape (d : JDict) : Prop :=
  ∃ t f n, d = [("success", JVal.bool true), ("text", JVal.str t),
                ("filename", JVal.str f), ("pages", JVal.num n)]

/-- The caught-exception envelope shape
`{success: false, error, filename}`. -/
def isFailureShape (d : JDict) : Prop :=
  ∃ e f, d = [("success", JVal.bool false), ("error", JVal.str e),
              ("filename", JVal.str f)]

def envC7 : Env := ⟨.error "no module named docling", fun _ => true, .ok (), fun _ => .error "x"⟩

def envC8 : Env := ⟨.ok (), fun _ => false, .ok (), fun _ => .error "x"⟩

def envC9a : Env := ⟨.ok (), fun _ => false, .ok (), fun _ => .error "e"⟩

def envC9b : Env := ⟨.ok (), fun s => decide (s = "elsewhere"), .ok (), fun _ => .error "e"⟩

def envC10 : Env := ⟨.error "No module named docling", fun _ => false, .ok (), fun _ => .error "x"⟩

/-! ### Helper lemmas: the four possible evaluations of `parse_document` -/

/-- If the `docling` import raises, the caught-exception envelope is
returned, whatever the filesystem says. -/
lemma pd_import_error (env : Env) (p e : String)
    (h : env.importDocling = .error e) :
    parse_document env p =
      [("success", JVal.bool false), ("error", JVal.str e),
       ("filename", JVal.str (exceptFilename p))] := by
  simp [parse_document, h]

/-- If the import succeeds and the path does not exist, the minimal
error dict is returned. -/
lemma pd_not_found (env : Env) (p : String)
    (himp : env.importDocling = .ok ()) (hex : env.pathExists p = false) :
    parse_document env p = [("error", JVal.str ("File not found: " ++ p))] := by
  simp [parse_document, himp, hex]

/-- If construction, conversion or export raises, the caught-exception
envelope is returned. -/
lemma pd_step_error (env : Env) (p e : String)
    (himp : env.importDocling = .ok ()) (hex : env.pathExists p = true)
    (hstep : env.converterInit = .error e ∨
      (env.converterInit = .ok () ∧ env.convert p = .error e) ∨
      (env.converterInit = .ok () ∧
        ∃ doc, env.convert p = .ok doc ∧ doc.exportToMarkdown = .error e)) :
    parse_document env p =
      [("success", JVal.bool false), ("error", JVal.str e),
       ("filename", JVal.str (exceptFilename p))] := by
  rcases hstep with h | ⟨h1, h2⟩ | ⟨h1, doc, h2, h3⟩
  · simp [parse_document, himp, hex, h]
  · simp [parse_document, himp, hex, h1, h2]
  · simp [parse_document, himp, hex, h1, h2, h3]

/-- If every step succeeds, the success envelope is returned. -/
lemma pd_ok (env : Env) (p : String) (doc : Doc) (text : String)
    (himp : env.importDocling = .ok ()) (hex : env.pathExists p = true)
    (hinit : env.converterInit = .ok ()) (hconv : env.convert p = .ok doc)
    (hexp : doc.exportToMarkdown = .ok text) :
    parse_document env p =
      [("success", JVal.bool true), ("text", JVal.str text),
       ("filename", JVal.str (pathName p)),
       ("pages", JVal.num (match doc.pages with
         | some ps => ps.length
         | none => 1))] := by
  simp [parse_document, himp, hex, hinit, hconv, hexp]

/-! ### Claim theorems -/

/-- C1: for every file path that does not exist on the filesystem (the
external library importing normally), `parse_document` returns exactly
the minimal `{"error": "File not found: <path>"}` dict, which carries
no `success` key and no `filename` key; since the statement holds for
every `converterInit`/`convert` behaviour, the not-found case is
decided before the external converter is invoked. -/
theorem c1_not_found (env : Env) (p : String)
    (himp : env.importDocling = .ok ()) (hex : env.pathExists p = false) :
    parse_document env p = [("error", JVal.str ("File not found: " ++ p))] ∧
    hasKey (parse_document env p) "success" = false ∧
    hasKey (parse_document env p) "filename" = false := by
  have h := pd_not_found env p himp hex
  refine ⟨h, ?_, ?_⟩ <;> rw [h] <;> rfl

theorem c1_witness :
    parse_document envC1 "missing.pdf" =
      [("error", JVal.str ("File not found: " ++ "missing.pdf"))] ∧
    hasKey (parse_document envC1 "missing.pdf") "success" = false ∧
    hasKey (parse_document envC1 "missing.pdf") "filename" = false :=
  c1_not_found envC1 "missing.pdf" rfl rfl

/-- C2: whenever converter construction, conversion or markdown export
raises (these steps run once the import succeeded and the path exists),
`parse_document` catches the exception and returns
`{"success": false, "error": str(e), "filename": basename-or-unknown}`;
being a total function of the environment, it lets no exception
escape. -/
theorem c2_catches_exceptions (env : Env) (p : String)
    (himp : env.importDocling = .ok ()) (hex : env.pathExists p = true) :
    (∀ e, env.converterInit = .error e →
      parse_document env p =
        [("success", JVal.bool false), ("error", JVal.str e),
         ("filename", JVal.str (exceptFilename p))]) ∧
    (∀ e, env.converterInit = .ok () → env.convert p = .error e →
      parse_document env p =
        [("success", JVal.bool false), ("error", JVal.str e),
         ("filename", JVal.str (exceptFilename p))]) ∧
    (∀ e doc, env.converterInit = .ok () → env.convert p = .ok doc →
      doc.exportToMarkdown = .error e →
      parse_document env p =
        [("success", JVal.bool false), ("error", JVal.str e),
         ("filename", JVal.str (exceptFilename p))]) ∧
    exceptFilename "" = "unknown" := by
  refine ⟨fun e h => ?_, fun e h1 h2 => ?_, fun e doc h1 h2 h3 => ?_, rfl⟩
  · exact pd_step_error env p e himp hex (Or.inl h)
  · exact pd_step_error env p e himp hex (Or.inr (Or.inl ⟨h1, h2⟩))
  · exact pd_step_error env p e himp hex (Or.inr (Or.inr ⟨h1, doc, h2, h3⟩))

theorem c2_witness :
    parse_document envC2 "doc.pdf" =
      [("success", JVal.bool false), ("error", JVal.str "boom"),
       ("filename", JVal.str (exceptFilename "doc.pdf"))] :=
  (c2_catches_exceptions envC2 "doc.pdf" rfl rfl).1 "boom" rfl

/-- C3: for every existing path on which conversion and export succeed,
`parse_document` returns the success envelope: `text` is the markdown
export, `filename` the path's base name, and `pages` the length of the
document's page collection when it has one, else 1. -/
theorem c3_success (env : Env) (p : String) (doc : Doc) (text : String)
    (himp : env.importDocling = .ok ()) (hex : env.pathExists p = true)
    (hinit : env.converterInit = .ok ()) (hconv : env.convert p = .ok doc)
    (hexp : doc.exportToMarkdown = .ok text) :
    parse_document env p =
      [("success", JVal.bool true), ("text", JVal.str text),
       ("filename", JVal.str (pathName p)),
       ("pages", JVal.num (match doc.pages with
         | some ps => ps.length
         | none => 1))] :=
  pd_ok env p doc text himp hex hinit hconv hexp

theorem c3_witness :
    parse_document envC3 "dir/report.pdf" =
      [("success", JVal.bool true), ("text", JVal.str "# Hi"),
       ("filename", JVal.str (pathName "dir/report.pdf")),
       ("pages", JVal.num 2)] :=
  c3_success envC3 "dir/report.pdf" docC3 "# Hi" rfl rfl rfl rfl rfl

/-- C4: invoked with zero command-line arguments, the program prints
exactly the one JSON line
`{"error": "Usage: parse_document.py <file_path>"}` and exits with
code 1. -/
theorem c4_usage (env : Env) :
    main env [] =
      ⟨["\x7b\"error\": \"Usage: parse_document.py <file_path>\"\x7d"], 1⟩ := by
  rfl

/-- C5: with at least one argument the process always exits with code
0 — for every environment, hence for not-found and caught conversion
failures alike — and the only report channel is the single printed JSON
payload. -/
theorem c5_exit_zero (env : Env) (file_path : String) (rest : List String) :
    (main env (file_path :: rest)).exitCode = 0 ∧
    (main env (file_path :: rest)).stdoutLines =
      [jsonDumps false (parse_document env file_path)] :=
  ⟨rfl, rfl⟩

/-- C6 counterexample: on a file whose conversion succeeds,
`parse_document` can return `success: true` together with an empty
`text` and `pages = 0`, so neither "non-empty `text`" nor
`pages >= 1` holds of every successful conversion. -/
theorem c6_counterexample :
    getVal (parse_document envC6 "empty.pdf") "success" = some (JVal.bool true) ∧
    getVal (parse_document envC6 "empty.pdf") "text" = some (JVal.str "") ∧
    getVal (parse_document envC6 "empty.pdf") "filename" = some (JVal.str "empty.pdf") ∧
    getVal (parse_document envC6 "empty.pdf") "pages" = some (JVal.num 0) ∧
    ¬ 1 ≤ 0 ∧ ("" : String).length = 0 := by
  decide

/-- C6 (amended): for every valid convertible file the envelope has
`success: true`, `text` equal to the markdown export (possibly empty),
`filename` equal to the path's base name, and `pages >= 1` whenever the
document lacks a page collection or its page collection is non-empty;
when the page collection is present and empty, `pages = 0`. -/
theorem c6_success_fields (env : Env) (p : String) (doc : Doc) (text : String)
    (himp : env.importDocling = .ok ()) (hex : env.pathExists p = true)
    (hinit : env.converterInit = .ok ()) (hconv : env.convert p = .ok doc)
    (hexp : doc.exportToMarkdown = .ok text) :
    getVal (parse_document env p) "success" = some (JVal.bool true) ∧
    getVal (parse_document env p) "text" = some (JVal.str text) ∧
    getVal (parse_document env p) "filename" = some (JVal.str (pathName p)) ∧
    ((doc.pages = none ∨ ∃ u l, doc.pages = some (u :: l)) →
      ∃ n, getVal (parse_document env p) "pages" = some (JVal.num n) ∧ 1 ≤ n) ∧
    (doc.pages = some [] →
      getVal (parse_document env p) "pages" = some (JVal.num 0)) := by
  have h := pd_ok env p doc text himp hex hinit hconv hexp
  rw [h]
  refine ⟨rfl, rfl, rfl, fun hp => ?_, fun hp => ?_⟩
  · rcases hp with hp | ⟨u, l, hp⟩ <;> rw [hp]
    · exact ⟨1, rfl, le_refl 1⟩
    · exact ⟨l.length + 1, rfl, Nat.succ_le_succ (Nat.zero_le _)⟩
  · rw [hp]
    rfl

theorem c6_witness :
    getVal (parse_document envC6W "b.pdf") "success" = some (JVal.bool true) ∧
    getVal (parse_document envC6W "b.pdf") "filename" = some (JVal.str (pathName "b.pdf")) ∧
    ∃ n, getVal (parse_document envC6W "b.pdf") "pages" = some (JVal.num n) ∧ 1 ≤ n := by
  obtain ⟨h1, h2, h3, h4, h5⟩ :=
    c6_success_fields envC6W "b.pdf" docC6W "x" rfl rfl rfl rfl rfl
  exact ⟨h1, h3, h4 (Or.inl rfl)⟩

/-- C7: every invocation yields exactly one result dict, and that dict
has exactly one of the three documented shapes; no result mixes fields
of two shapes, the three shapes being pairwise incompatible. -/
theorem c7_result_shapes (env : Env) (p : String) :
    (isMinErrorShape (parse_document env p) ∨
     isSuccessShape (parse_document env p) ∨
     isFailureShape (parse_document env p)) ∧
    ¬ (isMinErrorShape (parse_document env p) ∧
       isSuccessShape (parse_document env p)) ∧
    ¬ (isMinErrorShape (parse_document env p) ∧
       isFailureShape (parse_document env p)) ∧
    ¬ (isSuccessShape (parse_document env p) ∧
       isFailureShape (parse_document env p)) := by
  refine ⟨?_, ?_, ?_, ?_⟩
  · rcases himp : env.importDocling with e | u
    · exact Or.inr (Or.inr ⟨e, _, pd_import_error env p e himp⟩)
    · cases hex : env.pathExists p with
      | false => exact Or.inl ⟨_, pd_not_found env p himp hex⟩
      | true =>
        rcases hinit : env.converterInit with e | u2
        · exact Or.inr (Or.inr ⟨e, _,
            pd_step_error env p e himp hex (Or.inl hinit)⟩)
        · rcases hconv : env.convert p with e | doc
          · exact Or.inr (Or.inr ⟨e, _,
              pd_step_error env p e himp hex (Or.inr (Or.inl ⟨hinit, hconv⟩))⟩)
          · rcases hexp : doc.exportToMarkdown with e | text
            · exact Or.inr (Or.inr ⟨e, _,
                pd_step_error env p e himp hex
                  (Or.inr (Or.inr ⟨hinit, doc, hconv, hexp⟩))⟩)
            · exact Or.inr (Or.inl ⟨text, _, _,
                pd_ok env p doc text himp hex hinit hconv hexp⟩)
  · rintro ⟨⟨e, h1⟩, ⟨t, f, n, h2⟩⟩
    rw [h1] at h2
    simp at h2
  · rintro ⟨⟨e, h1⟩, ⟨e2, f, h2⟩⟩
    rw [h1] at h2
    simp at h2
  · rintro ⟨⟨t, f, n, h1⟩, ⟨e, f2, h2⟩⟩
    rw [h1] at h2
    simp at h2

theorem c7_witness :
    isMinErrorShape (parse_document envC7 "gone.txt") ∨
    isSuccessShape (parse_document envC7 "gone.txt") ∨
    isFailureShape (parse_document envC7 "gone.txt") :=
  (c7_result_shapes envC7 "gone.txt").1

/-! ### The serializer never emits a newline character -/

lemma hexDigit_lt16_ne_newline : ∀ m : Nat, m < 16 → hexDigit m ≠ '\n' := by
  decide

lemma hexList4_ne_newline (n : Nat) : '\n' ∉ hexList4 n := by
  simp only [hexList4, List.mem_cons, List.not_mem_nil, or_false]
  rintro (h | h | h | h) <;>
    exact hexDigit_lt16_ne_newline _ (Nat.mod_lt _ (by norm_num)) h.symm

set_option maxHeartbeats 1600000 in
lemma escapeChar_ne_newline (ea : Bool) (c : Char) : '\n' ∉ escapeChar ea c := by
  unfold escapeChar
  split_ifs with hq hb hn ht hr h8 h12 h32 hea hle
  · decide
  · decide
  · decide
  · decide
  · decide
  · decide
  · decide
  · intro hm
    rcases List.mem_cons.mp hm with h | hm2
    · exact absurd h (by decide)
    rcases List.mem_cons.mp hm2 with h | h
    · exact absurd h (by decide)
    · exact hexList4_ne_newline _ h
  · intro hm
    rcases List.mem_cons.mp hm with h | hm2
    · exact absurd h (by decide)
    rcases List.mem_cons.mp hm2 with h | h
    · exact absurd h (by decide)
    · exact hexList4_ne_newline _ h
  · intro hm
    rcases List.mem_append.mp hm with hm2 | hm2 <;>
    · rcases List.mem_cons.mp hm2 with h | hm3
      · exact absurd h (by decide)
      rcases List.mem_cons.mp hm3 with h | h
      · exact absurd h (by decide)
      · exact hexList4_ne_newline _ h
  · intro hm
    rw [List.mem_singleton] at hm
    exact hn hm.symm

lemma escapeString_ne_newline (ea : Bool) (l : List Char) :
    '\n' ∉ escapeString ea l := by
  induction l with
  | nil => simp [escapeString]
  | cons c cs ih =>
    simp only [escapeString, List.mem_append]
    rintro (h | h)
    · exact escapeChar_ne_newline ea c h
    · exact ih h

lemma jsonStringChars_ne_newline (ea : Bool) (s : String) :
    '\n' ∉ jsonStringChars ea s := by
  intro hm
  rcases List.mem_cons.mp hm with h | hm2
  · exact absurd h (by decide)
  rcases List.mem_append.mp hm2 with h | h
  · exact escapeString_ne_newline ea s.data h
  · rw [List.mem_singleton] at h
    exact absurd h (by decide)

lemma natDecCore_ne_newline (fuel : Nat) :
    ∀ (n : Nat) (acc : List Char), '\n' ∉ acc → '\n' ∉ natDecCore fuel n acc := by
  induction fuel with
  | zero =>
    intro n acc hacc
    simpa [natDecCore] using hacc
  | succ fuel ih =>
    intro n acc hacc
    have hd : '\n' ∉ (hexDigit (n % 10) :: acc) := by
      simp only [List.mem_cons]
      rintro (h | h)
      · exact hexDigit_lt16_ne_newline _
          (lt_trans (Nat.mod_lt _ (by norm_num)) (by norm_num)) h.symm
      · exact hacc h
    unfold natDecCore
    split_ifs with hlt
    · exact hd
    · exact ih _ _ hd

lemma natDecChars_ne_newline (n : Nat) : '\n' ∉ natDecChars n :=
  natDecCore_ne_newline _ n [] (by simp)

lemma jsonValChars_ne_newline (ea : Bool) (v : JVal) :
    '\n' ∉ jsonValChars ea v := by
  cases v with
  | str s => exact jsonStringChars_ne_newline ea s
  | bool b => cases b <;> simp only [jsonValChars] <;> decide
  | num n => exact natDecChars_ne_newline n

lemma jsonEntryChars_ne_newline (ea : Bool) (kv : String × JVal) :
    '\n' ∉ jsonEntryChars ea kv := by
  intro hm
  simp only [jsonEntryChars] at hm
  rcases List.mem_append.mp hm with h | hm2
  · exact jsonStringChars_ne_newline ea kv.1 h
  rcases List.mem_cons.mp hm2 with h | hm3
  · exact absurd h (by decide)
  rcases List.mem_cons.mp hm3 with h | h
  · exact absurd h (by decide)
  · exact jsonValChars_ne_newline ea kv.2 h

lemma jsonEntriesChars_ne_newline (ea : Bool) (d : JDict) :
    '\n' ∉ jsonEntriesChars ea d := by
  induction d with
  | nil => simp [jsonEntriesChars]
  | cons kv kvs ih =>
    cases kvs with
    | nil => simpa only [jsonEntriesChars] using jsonEntryChars_ne_newline ea kv
    | cons kv2 kvs2 =>
      intro hm
      simp only [jsonEntriesChars] at hm
      rcases List.mem_append.mp hm with h | hm2
      · exact jsonEntryChars_ne_newline ea kv h
      rcases List.mem_cons.mp hm2 with h | hm3
      · exact absurd h (by decide)
      rcases List.mem_cons.mp hm3 with h | h
      · exact absurd h (by decide)
      · exact ih h

lemma jsonDumps_ne_newline (ea : Bool) (d : JDict) :
    '\n' ∉ (jsonDumps ea d).data := by
  have hd : (jsonDumps ea d).data =
      Char.ofNat 123 :: jsonEntriesChars ea d ++ [Char.ofNat 125] := rfl
  rw [hd]
  intro hm
  rcases List.mem_cons.mp hm with h | hm2
  · exact absurd h (by decide)
  rcases List.mem_append.mp hm2 with h | h
  · exact jsonEntriesChars_ne_newline ea d h
  · rw [List.mem_singleton] at h
    exact absurd h (by decide)

/-- C8: for every invocation — zero arguments or at least one — the
program writes exactly one line to standard output; that line contains
no newline character, and it is the JSON serialization of the result
envelope (`ensure_ascii=False` for results, so characters outside the
escaped set — in particular all non-ASCII characters — pass through
unescaped). -/
theorem c8_single_json_line (env : Env) (argv : List String) :
    (main env argv).stdoutLines.length = 1 ∧
    (∀ l ∈ (main env argv).stdoutLines, '\n' ∉ l.data) ∧
    (match argv with
     | [] => (main env argv).stdoutLines =
         [jsonDumps true [("error", JVal.str "Usage: parse_document.py <file_path>")]]
     | file_path :: _ => (main env argv).stdoutLines =
         [jsonDumps false (parse_document env file_path)]) ∧
    (∀ c : Char, 31 < c.toNat → c ≠ '"' → c ≠ '\\' → escapeChar false c = [c]) := by
  refine ⟨?_, ?_, ?_, ?_⟩
  · cases argv <;> rfl
  · cases argv with
    | nil =>
      intro l hl
      cases hl with
      | head => exact jsonDumps_ne_newline _ _
      | tail _ h => cases h
    | cons file_path rest =>
      intro l hl
      cases hl with
      | head => exact jsonDumps_ne_newline _ _
      | tail _ h => cases h
  · cases argv <;> rfl
  · intro c hc hq hb
    have h1 : ¬ c = '\n' := fun h => by rw [h] at hc; exact absurd hc (by decide)
    have h2 : ¬ c = '\t' := fun h => by rw [h] at hc; exact absurd hc (by decide)
    have h3 : ¬ c = '\r' := fun h => by rw [h] at hc; exact absurd hc (by decide)
    have h4 : ¬ c.toNat = 8 := by omega
    have h5 : ¬ c.toNat = 12 := by omega
    have h6 : ¬ c.toNat < 32 := by omega
    simp [escapeChar, hq, hb, h1, h2, h3, h4, h5, h6]

theorem c8_witness :
    (main envC8 ["gone.txt"]).stdoutLines.length = 1 ∧
    escapeChar false 'é' = ['é'] := by
  obtain ⟨h1, h2, h3, h4⟩ := c8_single_json_line envC8 ["gone.txt"]
  exact ⟨h1, h4 'é' (by decide) (by decide) (by decide)⟩

/-- C9: `parse_document` is a deterministic function of the
collaborator's behaviour at the given path: two invocations (modelled
as two environments) in which the filesystem and the converter respond
identically for that file return identical envelopes, in particular
identical `text` and identical `pages`. -/
theorem c9_deterministic (env1 env2 : Env) (p : String)
    (h1 : env1.importDocling = env2.importDocling)
    (h2 : env1.pathExists p = env2.pathExists p)
    (h3 : env1.converterInit = env2.converterInit)
    (h4 : env1.convert p = env2.convert p) :
    parse_document env1 p = parse_document env2 p ∧
    getVal (parse_document env1 p) "text" =
      getVal (parse_document env2 p) "text" ∧
    getVal (parse_document env1 p) "pages" =
      getVal (parse_document env2 p) "pages" := by
  have h : parse_document env1 p = parse_document env2 p := by
    unfold parse_document
    rw [h1, h2, h3, h4]
  exact ⟨h, by rw [h], by rw [h]⟩

theorem c9_witness :
    parse_document envC9a "same.pdf" = parse_document envC9b "same.pdf" ∧
    getVal (parse_document envC9a "same.pdf") "text" =
      getVal (parse_document envC9b "same.pdf") "text" ∧
    getVal (parse_document envC9a "same.pdf") "pages" =
      getVal (parse_document envC9b "same.pdf") "pages" :=
  c9_deterministic envC9a envC9b "same.pdf" rfl rfl rfl rfl

/-- C10: the `docling` import sits inside the `try` block and runs
before the existence check, so when importing raises, `parse_document`
returns the caught-exception envelope for every path — a nonexistent
path included, which then never receives the minimal
`{"error": "File not found: <path>"}` object. -/
theorem c10_import_inside_try (env : Env) (p e : String)
    (h : env.importDocling = .error e) :
    parse_document env p =
      [("success", JVal.bool false), ("error", JVal.str e),
       ("filename", JVal.str (exceptFilename p))] ∧
    (env.pathExists p = false →
      ∀ e2, parse_document env p ≠ [("error", JVal.str e2)]) := by
  have hq := pd_import_error env p e h
  refine ⟨hq, fun _ e2 hcon => ?_⟩
  rw [hq] at hcon
  simp at hcon

theorem c10_witness :
    parse_document envC10 "nofile.pdf" =
      [("success", JVal.bool false),
       ("error", JVal.str "No module named docling"),
       ("filename", JVal.str (exceptFilename "nofile.pdf"))] ∧
    (envC10.pathExists "nofile.pdf" = false →
      ∀ e2, parse_document envC10 "nofile.pdf" ≠ [("error", JVal.str e2)]) :=
  c10_import_inside_try envC10 "nofile.pdf" "No module named docling" rfl

end ParseDoc
